import Mathlib

/-!
Modelo formal del backend de la escuela de conducción JyJ Palacios.

Se embeben las dos variantes del servidor Express: la variante relacional
(servidor.js, con pool de PostgreSQL) y la variante alojada (la copia del
servidor que usa la API de tablas de Supabase con reserva hacia el pool).
Las cadenas de JavaScript se modelan con `String` de Lean y las operaciones
`trim`, `toLowerCase`, `||` y la verdad de cadenas se definen explícitamente
sobre listas de caracteres para que todo sea computable.
-/

namespace JJPalacios

/-! ### Utilidades de cadenas al estilo JavaScript -/

/-- Verdad de una cadena opcional en JavaScript: `undefined`/`null` y la cadena
vacía son valores falsos. -/
def truthy : Option String → Bool
  | none => false
  | some s => s ≠ ""

/-- Modelo del operador `a || b` de JavaScript sobre cadenas opcionales. -/
def jsOr (a b : Option String) : Option String :=
  if truthy a then a else b

/-- Modelo del patrón JavaScript que convierte una cadena opcional en cadena:
`null`/`undefined` se vuelven la cadena vacía. -/
def cadenaONula : Option String → String
  | none => ""
  | some s => s

/-- Caracteres en blanco que elimina `String.prototype.trim`. -/
def esEspacio (c : Char) : Bool :=
  c = ' ' || c = '\t' || c = '\n' || c = '\r'

/-- Elimina los blancos iniciales y finales de una lista de caracteres. -/
def recortarLista (l : List Char) : List Char :=
  ((l.dropWhile esEspacio).reverse.dropWhile esEspacio).reverse

/-- Modelo de `String.prototype.trim`. -/
def recortar (s : String) : String :=
  String.mk (recortarLista s.toList)

/-- Modelo de `String.prototype.toLowerCase`. -/
def minusculas (s : String) : String :=
  String.mk (s.toList.map Char.toLower)

/-- Decide si la lista `pat` es segmento inicial de `l`. -/
def comienzaCon : List Char → List Char → Bool
  | [], _ => true
  | _ :: _, [] => false
  | a :: pat, b :: l => a = b && comienzaCon pat l

/-- Decide si `pat` aparece como segmento contiguo de `l`. -/
def apareceEnLista (pat : List Char) : List Char → Bool
  | [] => comienzaCon pat []
  | b :: l => comienzaCon pat (b :: l) || apareceEnLista pat l

/-- Decide si `pat` aparece como subcadena de `s`. -/
def contieneCadena (s pat : String) : Bool :=
  apareceEnLista pat.toList s.toList

/-- Modelo de la expresión regular `/permission denied|rls|row level security/i`
aplicada a una cadena (los tres patrones están en minúsculas, de modo que basta
pasar la cadena a minúsculas). -/
def patronPermisos (s : String) : Bool :=
  contieneCadena (minusculas s) "permission denied"
    || contieneCadena (minusculas s) "rls"
    || contieneCadena (minusculas s) "row level security"

/-- Modelo de `nombreContieneNumeros` de servidor.js: la expresión regular
`/[0-9]/` aplicada al nombre. -/
def nombreContieneNumeros (nombre : String) : Bool :=
  nombre.toList.any fun c => decide ('0' ≤ c) && decide (c ≤ '9')

/-! ### Capa de compatibilidad de esquema: obtenerMapaUsuarios -/

/-- Mapa de las cuatro columnas lógicas de la tabla `usuarios`. -/
structure MapaUsuarios where
  columnaId : String
  columnaNombre : String
  columnaCorreo : Option String
  columnaContrasena : String
deriving DecidableEq

/-- Modelo de `obtenerMapaUsuarios` de servidor.js: dado el conjunto de nombres
de columnas físicas de la tabla `usuarios` (aquí una lista con pertenencia
decidible), resuelve cada rol lógico en el orden de prioridad fijo del código. -/
def obtenerMapaUsuarios (columnas : List String) : MapaUsuarios where
  columnaId := if "id_usuario" ∈ columnas then "id_usuario" else "id"
  columnaNombre :=
    if "nombre" ∈ columnas then "nombre"
    else if "nombre_completo" ∈ columnas then "nombre_completo"
    else "usuario"
  columnaCorreo :=
    if "correo" ∈ columnas then some "correo"
    else if "usuario" ∈ columnas then some "usuario"
    else none
  columnaContrasena :=
    if "contrasena" ∈ columnas then "contrasena" else "password_hash"

/-! ### Documentos (variante relacional, servidor.js) -/

/-- Fila de la tabla `documentos` en su forma externa
(id, titulo, descripcion, url, tipo). -/
structure Documento where
  id : Nat
  titulo : String
  descripcion : Option String
  url : String
  tipo : String
deriving DecidableEq

/-- Orden lexicográfico decidible entre listas de caracteres; modela la
comparación de texto usada por `ORDER BY titulo_documento ASC`. -/
def leListaChar : List Char → List Char → Bool
  | [], _ => true
  | _ :: _, [] => false
  | a :: as, b :: bs => if a = b then leListaChar as bs else decide (a < b)

/-- Orden entre documentos por título, usado por `ORDER BY titulo_documento ASC`. -/
def leTitulo (a b : Documento) : Prop :=
  leListaChar a.titulo.toList b.titulo.toList = true

instance : DecidableRel leTitulo := fun a b =>
  inferInstanceAs (Decidable (leListaChar a.titulo.toList b.titulo.toList = true))

/-- Modelo de la consulta SQL parametrizada de `GET /api/documentos`:
`WHERE ($1::text IS NULL OR tipo_documento = $1) ORDER BY titulo_documento ASC`. -/
def consultaDocumentos (documentos : List Documento) (parametro : Option String) :
    List Documento :=
  List.insertionSort leTitulo
    (documentos.filter fun d =>
      match parametro with
      | none => true
      | some t => d.tipo == t)

/-- Manejador `GET /api/documentos` de servidor.js: el parámetro de consulta
pasa por el valor por defecto unidades (operador de disyunción de JavaScript
sobre `solicitud.query.tipo`) antes de llegar a la consulta. -/
def tipoEfectivo (tipoConsulta : Option String) : String :=
  cadenaONula (jsOr tipoConsulta (some "unidades"))

/-- Respuesta de `GET /api/documentos` de servidor.js (lista de filas devuelta). -/
def obtenerDocumentos (documentos : List Documento) (tipoConsulta : Option String) :
    List Documento :=
  consultaDocumentos documentos (some (tipoEfectivo tipoConsulta))

/-! ### Usuarios (variante relacional, servidor.js) -/

/-- Fila de la tabla `usuarios` vista a través del mapa de columnas. -/
structure FilaUsuario where
  id : Nat
  nombre : String
  correo : String
  contrasena : String
deriving DecidableEq

/-- Estado persistente de la variante relacional: las filas de `usuarios` y el
último valor entregado por la secuencia `usuarios_<columnaId>_seq`. -/
structure EstadoUsuarios where
  filas : List FilaUsuario
  secuencia : Nat
deriving DecidableEq

/-- Valor que generará `nextval` en el próximo uso de la secuencia
(semántica de `setval(s, v)` con `is_called = true`). -/
def siguienteValorSecuencia (estado : EstadoUsuarios) : Nat :=
  estado.secuencia + 1

/-- Modelo de `COALESCE((SELECT MAX(id) FROM usuarios), 0)`. -/
def maxId (filas : List FilaUsuario) : Nat :=
  (filas.map FilaUsuario.id).foldr max 0

/-- Manejador `POST /api/usuarios` de servidor.js: valida campos, rechaza
nombres con dígitos, pre-verifica el correo duplicado con
`SELECT 1 ... WHERE correo = $1 LIMIT 1` y solo entonces inserta (la fila nueva
toma su id de `nextval`). Devuelve el código de estado y el estado resultante. -/
def crearUsuario (estado : EstadoUsuarios)
    (nombre correo contrasena : Option String) : Nat × EstadoUsuarios :=
  if !truthy nombre || !truthy correo || !truthy contrasena then (400, estado)
  else if nombreContieneNumeros (cadenaONula nombre) then (400, estado)
  else if estado.filas.any (fun f => f.correo == cadenaONula correo) then (409, estado)
  else
    let nuevoId := siguienteValorSecuencia estado
    (201,
      { filas := estado.filas ++
          [{ id := nuevoId, nombre := cadenaONula nombre,
             correo := cadenaONula correo, contrasena := cadenaONula contrasena }],
        secuencia := nuevoId })

/-- Manejador `PUT /api/usuarios/:id` de servidor.js. El parámetro SQL de la
contraseña es `contrasena || null` (ausente o vacía se vuelve NULL) y la
columna se asigna con `COALESCE($3, contrasena)`, conservando la clave
almacenada cuando el parámetro es NULL. -/
def actualizarUsuario (estado : EstadoUsuarios) (id : Nat)
    (nombre correo contrasena : Option String) : Nat × EstadoUsuarios :=
  if !truthy nombre || !truthy correo then (400, estado)
  else if nombreContieneNumeros (cadenaONula nombre) then (400, estado)
  else if estado.filas.all (fun f => f.id != id) then (404, estado)
  else
    let parametroContrasena : Option String :=
      if truthy contrasena then contrasena else none
    (200,
      { estado with
          filas := estado.filas.map fun f =>
            if f.id = id then
              { f with nombre := cadenaONula nombre,
                       correo := cadenaONula correo,
                       contrasena := parametroContrasena.getD f.contrasena }
            else f })

/-- Primera sentencia de la transacción de borrado:
`DELETE FROM usuarios WHERE id = $1`. -/
def eliminarFilas (filas : List FilaUsuario) (id : Nat) : List FilaUsuario :=
  filas.filter fun f => f.id != id

/-- Segunda sentencia de la transacción de borrado:
`UPDATE usuarios SET id = id - 1 WHERE id > $1`. -/
def compactarFilas (filas : List FilaUsuario) (id : Nat) : List FilaUsuario :=
  filas.map fun f => if id < f.id then { f with id := f.id - 1 } else f

/-- Manejador `DELETE /api/usuarios/:id` de servidor.js: tres sentencias
(borrar, compactar, `setval`) dentro de una transacción. Los indicadores de
falla modelan el fracaso de cada sentencia SQL; cualquier falla provoca
`ROLLBACK`, que restaura el estado inicial, y la respuesta 500. Si ninguna
fila coincide se hace `ROLLBACK` y se responde 404. -/
def eliminarUsuario (estado : EstadoUsuarios) (id : Nat)
    (fallaEliminar fallaCompactar fallaSecuencia : Bool) : Nat × EstadoUsuarios :=
  if fallaEliminar then (500, estado)
  else if estado.filas.all (fun f => f.id != id) then (404, estado)
  else if fallaCompactar then (500, estado)
  else if fallaSecuencia then (500, estado)
  else
    let filasFinales := compactarFilas (eliminarFilas estado.filas id) id
    (200, { filas := filasFinales, secuencia := maxId filasFinales })

/-- Identificadores de las filas de usuarios, en el orden de la tabla. -/
def ids (filas : List FilaUsuario) : List Nat :=
  filas.map FilaUsuario.id

/-- Invariante de servidor.js: los identificadores forman exactamente el rango
contiguo 1, 2, ..., n (como multiconjunto). -/
def contiguosDesdeUno (filas : List FilaUsuario) : Prop :=
  (ids filas).Perm (List.range' 1 filas.length)

/-! ### Autenticación -/

/-- Fila de `usuarios` tal como la devuelven la API de tablas o
`buscarUsuarioPorCorreoConPool` (columnas id_usuario, nombre, correo,
contrasena; nombre y contrasena pueden ser NULL). -/
structure UsuarioAut where
  id_usuario : Nat
  nombre : Option String
  correo : String
  contrasena : Option String
deriving DecidableEq

/-- Proyección mínima devuelta en una autenticación exitosa. -/
structure ProyeccionUsuario where
  id : Nat
  correo : String
  nombre_completo : String
deriving DecidableEq

/-- Cuerpo JSON de la respuesta de autenticación. -/
inductive CuerpoRespuesta where
  | fallo (mensaje : String) (detalle : Option String)
  | acceso (usuario : ProyeccionUsuario)
deriving DecidableEq

/-- Respuesta HTTP: código de estado y cuerpo JSON. -/
structure Respuesta where
  status : Nat
  cuerpo : CuerpoRespuesta
deriving DecidableEq

/-- Mensaje común de credenciales rechazadas (correo desconocido o clave
incorrecta, indistinguibles). -/
def mensajeCredenciales : String :=
  "Credenciales incorrectas, verifique sus datos."

/-- Proyección devuelta con 200:
`{ id: usuario.id_usuario, correo: usuario.correo, nombre_completo: usuario.nombre || usuario.correo }`. -/
def proyectarUsuario (u : UsuarioAut) : ProyeccionUsuario where
  id := u.id_usuario
  correo := u.correo
  nombre_completo := if truthy u.nombre then cadenaONula u.nombre else u.correo

/-- Etapa final de comparación de credenciales, idéntica en ambas variantes:
el recorte de la contraseña almacenada (NULL se trata como cadena vacía)
comparado con el recorte de la clave enviada decide entre 401 y 200. -/
def respuestaCredenciales (usuario : UsuarioAut) (clave : String) : Respuesta :=
  if recortar (cadenaONula usuario.contrasena) ≠ recortar clave then
    { status := 401, cuerpo := .fallo mensajeCredenciales none }
  else
    { status := 200, cuerpo := .acceso (proyectarUsuario usuario) }

/-- Modelo de la consulta
de tablas sobre usuarios (igualdad en la columna correo con maybeSingle) y de
la consulta SQL `WHERE correo = $1 LIMIT 1`: primera fila con ese correo. -/
def consultaPorCorreo (tabla : List UsuarioAut) (correo : String) : Option UsuarioAut :=
  tabla.find? fun u => u.correo == correo

/-- Manejador `POST /api/autenticacion` de servidor.js. `errorSupabase` modela
el error devuelto por la llamada a Supabase (`none` cuando no hubo error). -/
def autenticacion (tabla : List UsuarioAut) (errorSupabase : Option String)
    (correo contrasena password : Option String) : Respuesta :=
  let clave := jsOr contrasena password
  if !truthy correo || !truthy clave then
    { status := 400, cuerpo := .fallo "Debe proporcionar el correo y la contraseña." none }
  else
    match errorSupabase with
    | some mensajeError =>
        { status := 500,
          cuerpo := .fallo "No se pudo validar el acceso en Supabase." (some mensajeError) }
    | none =>
        match consultaPorCorreo tabla (cadenaONula correo) with
        | none => { status := 401, cuerpo := .fallo mensajeCredenciales none }
        | some usuario => respuestaCredenciales usuario (cadenaONula clave)

/-- Modelo de `buscarUsuarioPorCorreoConPool` de la variante alojada: resuelve
el mapa de columnas; si la columna de correo (o la de contraseña, siempre no
vacía) no es utilizable devuelve el error fijo, y si no, consulta la tabla
relacional por correo. -/
def buscarUsuarioPorCorreoConPool (columnas : List String) (tabla : List UsuarioAut)
    (correo : String) : Option UsuarioAut × Option String :=
  let mapa := obtenerMapaUsuarios columnas
  if !truthy mapa.columnaCorreo || mapa.columnaContrasena == "" then
    (none,
      some "No se pudo identificar las columnas de correo y contraseña en la tabla usuarios.")
  else
    (consultaPorCorreo tabla correo, none)

/-- Resultado de la etapa Supabase en la variante alojada: cliente sin
configurar, error de consulta, o datos (usuario opcional). -/
inductive EstadoSupabase where
  | sinCliente
  | errorConsulta (mensaje : String)
  | datos (usuario : Option UsuarioAut)
deriving DecidableEq

/-- Mensaje de `obtenerClienteSupabase` cuando faltan las variables de entorno. -/
def mensajeFaltaConfiguracion : String :=
  "Faltan SUPABASE_URL o SUPABASE_*_KEY en variables de entorno."

/-- Conversión del mensaje de error de consulta: un mensaje vacío se
reemplaza por el mensaje de error desconocido. -/
def mensajeErrorConsulta (mensaje : String) : String :=
  if mensaje = "" then "Error desconocido en Supabase." else mensaje

/-- Entorno de la variante alojada: estado del cliente Supabase y pool
relacional opcional (columnas físicas de `usuarios` y filas de la tabla). -/
structure EntornoHosted where
  supabase : EstadoSupabase
  pool : Option (List String × List UsuarioAut)
deriving DecidableEq

/-- Manejador `POST /api/autenticacion` de la variante alojada (README):
consulta Supabase, calcula `sinSupabase` y `esErrorPermisos`, cae al pool
relacional cuando no hay usuario y el error luce de permisos o no hay cliente,
y elige 503/500/502 cuando sigue sin usuario y queda un error. -/
def autenticacionHosted (entorno : EntornoHosted)
    (correo contrasena password : Option String) : Respuesta :=
  let clave := jsOr contrasena password
  if !truthy correo || !truthy clave then
    { status := 400, cuerpo := .fallo "Debe proporcionar el correo y la contraseña." none }
  else
    let usuario0 : Option UsuarioAut :=
      match entorno.supabase with
      | .datos u => u
      | _ => none
    let errorConsulta0 : Option String :=
      match entorno.supabase with
      | .sinCliente => some mensajeFaltaConfiguracion
      | .errorConsulta m => some (mensajeErrorConsulta m)
      | .datos _ => none
    let sinSupabase : Bool :=
      match entorno.supabase with
      | .sinCliente => true
      | _ => false
    let esErrorPermisos : Bool := patronPermisos (cadenaONula errorConsulta0)
    let trasReserva : Option UsuarioAut × Option String :=
      if usuario0.isNone && (esErrorPermisos || sinSupabase) then
        match entorno.pool with
        | none => (usuario0, errorConsulta0)
        | some (columnas, tabla) =>
            let resultado := buscarUsuarioPorCorreoConPool columnas tabla (cadenaONula correo)
            match resultado.2 with
            | some e => (usuario0, some e)
            | none => (resultado.1, errorConsulta0)
      else (usuario0, errorConsulta0)
    if trasReserva.1.isNone && trasReserva.2.isSome then
      let codigoEstado : Nat :=
        if sinSupabase then 503 else if esErrorPermisos then 500 else 502
      let mensaje : String :=
        if esErrorPermisos then
          "No hay permisos para consultar usuarios en Supabase. Configure la key de servicio o ajuste RLS."
        else "No se pudo validar el acceso en Supabase."
      { status := codigoEstado, cuerpo := .fallo mensaje trasReserva.2 }
    else
      match trasReserva.1 with
      | none => { status := 401, cuerpo := .fallo mensajeCredenciales none }
      | some usuario => respuestaCredenciales usuario (cadenaONula clave)

/-! ### Rutas alojadas con validación de administrador -/

/-- Modelo de `obtenerCorreoSesionDesdeHeaders`: lee `x-correo-sesion`
(ausente o vacío da cadena vacía) y lo normaliza con trim y minúsculas. -/
def obtenerCorreoSesionDesdeHeaders (encabezado : Option String) : String :=
  match encabezado with
  | none => ""
  | some h => if h = "" then "" else minusculas (recortar h)

/-- Modelo de `validarCorreoAdministrador`: el correo de sesión normalizado
debe ser exactamente admin@gmail.com. -/
def validarCorreoAdministrador (encabezado : Option String) : Bool :=
  obtenerCorreoSesionDesdeHeaders encabezado = "admin@gmail.com"

/-- Manejador `GET /api/usuarios` alojado. Devuelve el código de estado y la
lista de operaciones de backend efectuadas (primero se exige el cliente
configurado, luego el correo de administrador, y recién entonces se consulta). -/
def listarUsuariosHosted (configurado : Bool) (encabezado : Option String)
    (fallaConsulta : Bool) : Nat × List String :=
  if !configurado then (503, [])
  else if !validarCorreoAdministrador encabezado then (403, [])
  else if fallaConsulta then (500, ["seleccionar usuarios"])
  else (200, ["seleccionar usuarios"])

/-- Manejador `POST /api/usuarios` alojado (estado y llamadas de backend). -/
def crearUsuarioHosted (configurado : Bool) (encabezado : Option String)
    (nombre correo contrasena : Option String) (fallaInsercion : Bool) :
    Nat × List String :=
  if !configurado then (503, [])
  else if !validarCorreoAdministrador encabezado then (403, [])
  else if !truthy nombre || !truthy correo || !truthy contrasena then (400, [])
  else if fallaInsercion then (500, ["insertar usuarios"])
  else (200, ["insertar usuarios"])

/-- Manejador `PUT /api/usuarios/:id` alojado (`Number(req.params.id)` nulo o
cero se rechaza con 400). -/
def actualizarUsuarioHosted (configurado : Bool) (encabezado : Option String)
    (id : Nat) (fallaActualizacion : Bool) : Nat × List String :=
  if !configurado then (503, [])
  else if !validarCorreoAdministrador encabezado then (403, [])
  else if id = 0 then (400, [])
  else if fallaActualizacion then (500, ["actualizar usuarios"])
  else (200, ["actualizar usuarios"])

/-- Manejador `DELETE /api/usuarios/:id` alojado. -/
def eliminarUsuarioHosted (configurado : Bool) (encabezado : Option String)
    (id : Nat) (fallaEliminacion : Bool) : Nat × List String :=
  if !configurado then (503, [])
  else if !validarCorreoAdministrador encabezado then (403, [])
  else if id = 0 then (400, [])
  else if fallaEliminacion then (500, ["eliminar usuarios"])
  else (200, ["eliminar usuarios"])

/-- Manejador `POST /api/documentos` alojado: tras las dos validaciones sube el
archivo a Storage y luego inserta la fila. -/
def crearDocumentoHosted (configurado : Bool) (encabezado : Option String)
    (titulo tipo : Option String) (hayArchivo : Bool)
    (fallaSubida fallaInsercion : Bool) : Nat × List String :=
  if !configurado then (503, [])
  else if !validarCorreoAdministrador encabezado then (403, [])
  else if !truthy titulo || !truthy tipo || !hayArchivo then (400, [])
  else if fallaSubida then (500, ["subir archivo"])
  else if fallaInsercion then (500, ["subir archivo", "insertar documentos"])
  else (200, ["subir archivo", "insertar documentos"])

/-- Manejador `PUT /api/documentos/:id` alojado: sube archivo solo si la
solicitud lo trae, y luego actualiza la fila. -/
def actualizarDocumentoHosted (configurado : Bool) (encabezado : Option String)
    (id : Nat) (hayArchivo fallaSubida fallaActualizacion : Bool) :
    Nat × List String :=
  if !configurado then (503, [])
  else if !validarCorreoAdministrador encabezado then (403, [])
  else if id = 0 then (400, [])
  else if hayArchivo && fallaSubida then (500, ["subir archivo"])
  else
    let llamadas := if hayArchivo then ["subir archivo", "actualizar documentos"]
      else ["actualizar documentos"]
    if fallaActualizacion then (500, llamadas) else (200, llamadas)

/-- Manejador `DELETE /api/documentos/:id` alojado. -/
def eliminarDocumentoHosted (configurado : Bool) (encabezado : Option String)
    (id : Nat) (fallaEliminacion : Bool) : Nat × List String :=
  if !configurado then (503, [])
  else if !validarCorreoAdministrador encabezado then (403, [])
  else if id = 0 then (400, [])
  else if fallaEliminacion then (500, ["eliminar documentos"])
  else (200, ["eliminar documentos"])

/-- Manejador `GET /api/documentos` alojado: no valida el correo de
administrador; consulta siempre que el cliente esté configurado. El encabezado
de sesión se recibe pero el manejador nunca lo lee. -/
def listarDocumentosHosted (configurado : Bool) (_encabezado : Option String)
    (_tipo : Option String) (fallaConsulta : Bool) : Nat × List String :=
  if !configurado then (503, [])
  else if fallaConsulta then (500, ["seleccionar documentos"])
  else (200, ["seleccionar documentos"])

/-- Ruta `POST /api/autenticacion` alojada vista con el encabezado de sesión:
el manejador no lee ningún encabezado, solo el cuerpo. -/
def autenticacionHostedRuta (_encabezado : Option String) (entorno : EntornoHosted)
    (correo contrasena password : Option String) : Respuesta :=
  autenticacionHosted entorno correo contrasena password

/-! ### Teoremas -/

/-- C6: el resolvedor de compatibilidad de esquema elige cada columna física
con el orden de prioridad fijo del código: identificador id_usuario y si no
id; nombre, luego nombre_completo, luego usuario; correo, luego usuario, luego
ninguna; contrasena y si no password_hash. -/
theorem obtenerMapaUsuarios_prioridades (S : List String) :
    ("id_usuario" ∈ S → (obtenerMapaUsuarios S).columnaId = "id_usuario")
    ∧ ("id_usuario" ∉ S → (obtenerMapaUsuarios S).columnaId = "id")
    ∧ ("nombre" ∈ S → (obtenerMapaUsuarios S).columnaNombre = "nombre")
    ∧ ("nombre" ∉ S → "nombre_completo" ∈ S →
        (obtenerMapaUsuarios S).columnaNombre = "nombre_completo")
    ∧ ("nombre" ∉ S → "nombre_completo" ∉ S →
        (obtenerMapaUsuarios S).columnaNombre = "usuario")
    ∧ ("correo" ∈ S → (obtenerMapaUsuarios S).columnaCorreo = some "correo")
    ∧ ("correo" ∉ S → "usuario" ∈ S →
        (obtenerMapaUsuarios S).columnaCorreo = some "usuario")
    ∧ ("correo" ∉ S → "usuario" ∉ S →
        (obtenerMapaUsuarios S).columnaCorreo = none)
    ∧ ("contrasena" ∈ S → (obtenerMapaUsuarios S).columnaContrasena = "contrasena")
    ∧ ("contrasena" ∉ S → (obtenerMapaUsuarios S).columnaContrasena = "password_hash") := by
  refine ⟨?_, ?_, ?_, ?_, ?_, ?_, ?_, ?_, ?_, ?_⟩ <;>
    intros <;> simp [obtenerMapaUsuarios, *]

/-- Testigo de C6 sobre un esquema heredado concreto. -/
theorem obtenerMapaUsuarios_prioridades_caso :
    (obtenerMapaUsuarios ["id", "nombre_completo", "usuario", "contrasena"]).columnaId = "id"
    ∧ (obtenerMapaUsuarios ["id", "nombre_completo", "usuario", "contrasena"]).columnaNombre
        = "nombre_completo"
    ∧ (obtenerMapaUsuarios ["id", "nombre_completo", "usuario", "contrasena"]).columnaCorreo
        = some "usuario"
    ∧ (obtenerMapaUsuarios ["id", "nombre_completo", "usuario", "contrasena"]).columnaContrasena
        = "contrasena" := by
  obtain ⟨_, h2, _, h4, _, _, h7, _, h9, _⟩ :=
    obtenerMapaUsuarios_prioridades ["id", "nombre_completo", "usuario", "contrasena"]
  exact ⟨h2 (by decide), h4 (by decide) (by decide), h7 (by decide) (by decide), h9 (by decide)⟩

/-- C7: una solicitud de alta válida cuyo correo ya existe en la tabla recibe
409 y deja el estado intacto: no se inserta fila alguna y la secuencia de
identificadores no se consume. -/
theorem crearUsuario_correo_duplicado (estado : EstadoUsuarios)
    (nombre correo contrasena : String)
    (hNombre : nombre ≠ "") (hCorreo : correo ≠ "") (hContrasena : contrasena ≠ "")
    (hDigitos : nombreContieneNumeros nombre = false)
    (hDup : ∃ f ∈ estado.filas, f.correo = correo) :
    crearUsuario estado (some nombre) (some correo) (some contrasena)
      = (409, estado) := by
  obtain ⟨f, hf, hfc⟩ := hDup
  have hAny : estado.filas.any (fun f => f.correo == correo) = true :=
    List.any_eq_true.mpr ⟨f, hf, by simp [hfc]⟩
  simp [crearUsuario, truthy, hNombre, hCorreo, hContrasena, cadenaONula, hDigitos, hAny]

/-- Testigo de C7 con una tabla concreta que ya contiene el correo. -/
theorem crearUsuario_correo_duplicado_caso :
    crearUsuario
        { filas := [{ id := 1, nombre := "Ana", correo := "ana@gmail.com",
                      contrasena := "clave" }], secuencia := 1 }
        (some "Beto") (some "ana@gmail.com") (some "otra")
      = (409,
          { filas := [{ id := 1, nombre := "Ana", correo := "ana@gmail.com",
                        contrasena := "clave" }], secuencia := 1 }) :=
  crearUsuario_correo_duplicado _ _ _ _ (by decide) (by decide) (by decide)
    (by decide) (by decide)

/-- C8: una actualización válida de un usuario existente que omite la
contraseña (o la envía vacía) sobrescribe nombre y correo de la fila
apuntada y conserva exactamente la contraseña almacenada. -/
theorem actualizarUsuario_conserva_contrasena (estado : EstadoUsuarios) (id : Nat)
    (nombre correo : String) (contrasena : Option String)
    (hNombre : nombre ≠ "") (hCorreo : correo ≠ "")
    (hDigitos : nombreContieneNumeros nombre = false)
    (hSinClave : contrasena = none ∨ contrasena = some "")
    (hExiste : ∃ f ∈ estado.filas, f.id = id) :
    actualizarUsuario estado id (some nombre) (some correo) contrasena
      = (200,
          { estado with
              filas := estado.filas.map fun f =>
                if f.id = id then { f with nombre := nombre, correo := correo }
                else f }) := by
  obtain ⟨f, hf, hfid⟩ := hExiste
  have hAll : estado.filas.all (fun f => f.id != id) = false := by
    rcases h : estado.filas.all (fun f => f.id != id) with _ | _
    · rfl
    · exact absurd (by simpa using List.all_eq_true.mp h f hf) (by simp [hfid])
  have hSin : truthy contrasena = false := by
    rcases hSinClave with h | h <;> simp [h, truthy]
  have hN : truthy (some nombre) = true := by simp [truthy, hNombre]
  have hC : truthy (some correo) = true := by simp [truthy, hCorreo]
  simp [actualizarUsuario, hN, hC, cadenaONula, hDigitos, hAll, hSin]

/-- Testigo de C8: actualización sin contraseña sobre una tabla concreta. -/
theorem actualizarUsuario_conserva_contrasena_caso :
    actualizarUsuario
        { filas := [{ id := 1, nombre := "Ana", correo := "ana@gmail.com",
                      contrasena := "clave" }], secuencia := 1 }
        1 (some "Anita") (some "anita@gmail.com") none
      = (200,
          { filas := [{ id := 1, nombre := "Anita", correo := "anita@gmail.com",
                        contrasena := "clave" }], secuencia := 1 }) := by
  have h := actualizarUsuario_conserva_contrasena
    { filas := [{ id := 1, nombre := "Ana", correo := "ana@gmail.com",
                  contrasena := "clave" }], secuencia := 1 }
    1 "Anita" "anita@gmail.com" none (by decide) (by decide) (by decide)
    (Or.inl rfl) ⟨_, List.mem_singleton_self _, rfl⟩
  simpa using h

/-- Decremento que aplica compactarFilas a un identificador. -/
def decSobre (n i : Nat) : Nat := if n < i then i - 1 else i

/-- Los identificadores tras compactar son los originales con el decremento. -/
theorem ids_compactarFilas (l : List FilaUsuario) (n : Nat) :
    ids (compactarFilas l n) = (ids l).map (decSobre n) := by
  simp only [ids, compactarFilas, List.map_map]
  apply List.map_congr_left
  intro f _
  by_cases h : n < f.id <;> simp [decSobre, h]

/-- Los identificadores tras el borrado son los originales sin `n`. -/
theorem ids_eliminarFilas (l : List FilaUsuario) (n : Nat) :
    ids (eliminarFilas l n) = (ids l).filter (fun i => i != n) := by
  induction l with
  | nil => rfl
  | cons f l ih =>
      by_cases h : f.id = n <;>
        simp [ids, eliminarFilas, List.filter_cons, h] at ih ⊢ <;>
        simpa [ids, eliminarFilas] using ih

/-- Filtrar un elemento distinto de `n` lo conserva. -/
theorem filtra_distinto (a n : Nat) (h : a ≠ n) :
    List.filter (fun i => i != n) [a] = [a] := by simp [h]

/-- Filtrar un elemento igual a `n` lo elimina. -/
theorem filtra_igual (a n : Nat) (h : a = n) :
    List.filter (fun i => i != n) [a] = [] := by simp [h]

/-- Quitar `n` del rango 1..k y decrementar los mayores deja el rango 1..k-1. -/
theorem rango_sin_n (n : Nat) (h1 : 1 ≤ n) :
    ∀ k, n ≤ k →
      ((List.range' 1 k).filter (fun i => i != n)).map (decSobre n)
        = List.range' 1 (k - 1) := by
  intro k
  induction k with
  | zero => intro h2; omega
  | succ k ih =>
      intro h2
      rw [List.range'_concat, List.filter_append, List.map_append]
      rcases Nat.lt_or_ge n (k + 1) with hlt | hge
      · have hnk : n ≤ k := by omega
        have hk1 : 1 ≤ k := le_trans h1 hnk
        have hne : List.filter (fun i => i != n) [1 + 1 * k] = [1 + 1 * k] :=
          filtra_distinto _ _ (by omega)
        have hdec : decSobre n (1 + 1 * k) = 1 + 1 * (k - 1) := by
          simp only [decSobre]
          have : n < 1 + 1 * k := by omega
          simp only [this, if_pos]
          omega
        rw [hne, ih hnk, List.map_cons, List.map_nil, hdec, ← List.range'_concat]
        congr 1
        omega
      · have heq : n = k + 1 := by omega
        have hlast : List.filter (fun i => i != n) [1 + 1 * k] = [] :=
          filtra_igual _ _ (by omega)
        have hkeep : List.filter (fun i => i != n) (List.range' 1 k) = List.range' 1 k := by
          apply List.filter_eq_self.mpr
          intro a ha
          obtain ⟨i, hi, hai⟩ := List.mem_range'.mp ha
          simp only [bne_iff_ne, ne_eq]
          omega
        have hmap : (List.range' 1 k).map (decSobre n) = List.range' 1 k := by
          conv_rhs => rw [← List.map_id (List.range' 1 k)]
          apply List.map_congr_left
          intro a ha
          obtain ⟨i, hi, hai⟩ := List.mem_range'.mp ha
          have : ¬ n < a := by omega
          simp [decSobre, this]
        rw [hlast, hkeep, hmap, List.map_nil, List.append_nil]
        congr 1

/-- C2: en un borrado relacional exitoso del usuario `n`, toda fila con
identificador mayor que `n` queda con su identificador decrementado en uno, la
secuencia queda de modo que su próximo valor es el nuevo máximo más uno, y si
cualquiera de las tres sentencias falla la transacción revierte el estado
completo. -/
theorem eliminarUsuario_compacta (estado : EstadoUsuarios) (n : Nat)
    (hExiste : ∃ f ∈ estado.filas, f.id = n) :
    (eliminarUsuario estado n false false false).1 = 200
    ∧ (∀ f ∈ estado.filas, n < f.id →
        { f with id := f.id - 1 } ∈ (eliminarUsuario estado n false false false).2.filas)
    ∧ siguienteValorSecuencia (eliminarUsuario estado n false false false).2
        = maxId (eliminarUsuario estado n false false false).2.filas + 1
    ∧ (∀ b1 b2 b3 : Bool, (b1 || b2 || b3) = true →
        (eliminarUsuario estado n b1 b2 b3).2 = estado) := by
  obtain ⟨f0, hf0, hf0id⟩ := hExiste
  have hAll : (estado.filas.all fun f => f.id != n) = false := by
    rcases h : estado.filas.all (fun f => f.id != n) with _ | _
    · rfl
    · exact absurd (by simpa using List.all_eq_true.mp h f0 hf0) (by simp [hf0id])
  refine ⟨by simp [eliminarUsuario, hAll], ?_, ?_, ?_⟩
  · intro f hf hgt
    simp only [eliminarUsuario, hAll, Bool.false_eq_true, if_false, if_neg]
    have hmem : f ∈ eliminarFilas estado.filas n := by
      simp only [eliminarFilas, List.mem_filter]
      exact ⟨hf, by simp; omega⟩
    simp only [compactarFilas, List.mem_map]
    exact ⟨f, hmem, by simp [hgt]⟩
  · simp [eliminarUsuario, hAll, siguienteValorSecuencia]
  · intro b1 b2 b3 hb
    cases b1 <;> cases b2 <;> cases b3 <;>
      simp_all [eliminarUsuario] <;> split <;> rfl

/-- Testigo de C2 sobre una tabla concreta de tres usuarios, borrando el 2. -/
theorem eliminarUsuario_compacta_caso :
    (eliminarUsuario
        { filas := [{ id := 1, nombre := "a", correo := "a@x", contrasena := "1" },
                    { id := 2, nombre := "b", correo := "b@x", contrasena := "2" },
                    { id := 3, nombre := "c", correo := "c@x", contrasena := "3" }],
          secuencia := 3 } 2 false false false).1 = 200
    ∧ ({ id := 2, nombre := "c", correo := "c@x", contrasena := "3" } : FilaUsuario)
        ∈ (eliminarUsuario
            { filas := [{ id := 1, nombre := "a", correo := "a@x", contrasena := "1" },
                        { id := 2, nombre := "b", correo := "b@x", contrasena := "2" },
                        { id := 3, nombre := "c", correo := "c@x", contrasena := "3" }],
              secuencia := 3 } 2 false false false).2.filas
    ∧ siguienteValorSecuencia
        (eliminarUsuario
            { filas := [{ id := 1, nombre := "a", correo := "a@x", contrasena := "1" },
                        { id := 2, nombre := "b", correo := "b@x", contrasena := "2" },
                        { id := 3, nombre := "c", correo := "c@x", contrasena := "3" }],
              secuencia := 3 } 2 false false false).2
        = maxId (eliminarUsuario
            { filas := [{ id := 1, nombre := "a", correo := "a@x", contrasena := "1" },
                        { id := 2, nombre := "b", correo := "b@x", contrasena := "2" },
                        { id := 3, nombre := "c", correo := "c@x", contrasena := "3" }],
              secuencia := 3 } 2 false false false).2.filas + 1
    ∧ (eliminarUsuario
        { filas := [{ id := 1, nombre := "a", correo := "a@x", contrasena := "1" },
                    { id := 2, nombre := "b", correo := "b@x", contrasena := "2" },
                    { id := 3, nombre := "c", correo := "c@x", contrasena := "3" }],
          secuencia := 3 } 2 false true false).2
        = { filas := [{ id := 1, nombre := "a", correo := "a@x", contrasena := "1" },
                      { id := 2, nombre := "b", correo := "b@x", contrasena := "2" },
                      { id := 3, nombre := "c", correo := "c@x", contrasena := "3" }],
            secuencia := 3 } := by
  obtain ⟨h1, h2, h3, h4⟩ := eliminarUsuario_compacta
    { filas := [{ id := 1, nombre := "a", correo := "a@x", contrasena := "1" },
                { id := 2, nombre := "b", correo := "b@x", contrasena := "2" },
                { id := 3, nombre := "c", correo := "c@x", contrasena := "3" }],
      secuencia := 3 } 2 (by decide)
  exact ⟨h1,
    h2 { id := 3, nombre := "c", correo := "c@x", contrasena := "3" }
      (by decide) (by decide),
    h3, h4 false true false (by decide)⟩

/-- C3: si los identificadores de la tabla de usuarios forman el rango contiguo
1..n, tras cualquier borrado exitoso vuelven a formar el rango contiguo
1..n-1: la contigüidad desde 1 es invariante del manejador de borrado. -/
theorem eliminarUsuario_invariante (estado : EstadoUsuarios) (n : Nat)
    (hCont : contiguosDesdeUno estado.filas)
    (hExiste : ∃ f ∈ estado.filas, f.id = n) :
    (eliminarUsuario estado n false false false).1 = 200
    ∧ contiguosDesdeUno (eliminarUsuario estado n false false false).2.filas := by
  obtain ⟨f0, hf0, hf0id⟩ := hExiste
  have hAll : (estado.filas.all fun f => f.id != n) = false := by
    rcases h : estado.filas.all (fun f => f.id != n) with _ | _
    · rfl
    · exact absurd (by simpa using List.all_eq_true.mp h f0 hf0) (by simp [hf0id])
  have hnIds : n ∈ ids estado.filas :=
    List.mem_map.mpr ⟨f0, hf0, hf0id⟩
  have hnRango : n ∈ List.range' 1 estado.filas.length := hCont.mem_iff.mp hnIds
  obtain ⟨i, hi, hni⟩ := List.mem_range'.mp hnRango
  have h1n : 1 ≤ n := by omega
  have hnL : n ≤ estado.filas.length := by omega
  refine ⟨by simp [eliminarUsuario, hAll], ?_⟩
  have hfilas : (eliminarUsuario estado n false false false).2.filas
      = compactarFilas (eliminarFilas estado.filas n) n := by
    simp [eliminarUsuario, hAll]
  rw [contiguosDesdeUno, hfilas, ids_compactarFilas, ids_eliminarFilas]
  have hperm : (((ids estado.filas).filter (fun i => i != n)).map (decSobre n)).Perm
      (((List.range' 1 estado.filas.length).filter (fun i => i != n)).map (decSobre n)) :=
    (hCont.filter _).map _
  have hobj := rango_sin_n n h1n estado.filas.length hnL
  have hperm2 : (((ids estado.filas).filter (fun i => i != n)).map (decSobre n)).Perm
      (List.range' 1 (estado.filas.length - 1)) := by
    rw [← hobj]; exact hperm
  have hlen : (compactarFilas (eliminarFilas estado.filas n) n).length
      = estado.filas.length - 1 := by
    have := hperm2.length_eq
    simp only [List.length_map, List.length_range'] at this
    calc (compactarFilas (eliminarFilas estado.filas n) n).length
        = (ids (compactarFilas (eliminarFilas estado.filas n) n)).length := by
          simp [ids]
      _ = estado.filas.length - 1 := by
          rw [ids_compactarFilas, ids_eliminarFilas, List.length_map]
          exact this
  rw [hlen]
  exact hperm2

/-- Testigo de C3: borrar el usuario 1 de la tabla con identificadores 1,2,3
deja identificadores que son una permutación de 1,2. -/
theorem eliminarUsuario_invariante_caso :
    (eliminarUsuario
        { filas := [{ id := 1, nombre := "a", correo := "a@x", contrasena := "1" },
                    { id := 2, nombre := "b", correo := "b@x", contrasena := "2" },
                    { id := 3, nombre := "c", correo := "c@x", contrasena := "3" }],
          secuencia := 3 } 1 false false false).1 = 200
    ∧ contiguosDesdeUno
        (eliminarUsuario
            { filas := [{ id := 1, nombre := "a", correo := "a@x", contrasena := "1" },
                        { id := 2, nombre := "b", correo := "b@x", contrasena := "2" },
                        { id := 3, nombre := "c", correo := "c@x", contrasena := "3" }],
              secuencia := 3 } 1 false false false).2.filas :=
  eliminarUsuario_invariante
    { filas := [{ id := 1, nombre := "a", correo := "a@x", contrasena := "1" },
                { id := 2, nombre := "b", correo := "b@x", contrasena := "2" },
                { id := 3, nombre := "c", correo := "c@x", contrasena := "3" }],
      secuencia := 3 } 1
    (by simp only [contiguosDesdeUno, ids]; decide) (by decide)

/-- Transitividad del orden lexicográfico sobre listas de caracteres. -/
theorem leListaChar_trans (l1 : List Char) :
    ∀ l2 l3, leListaChar l1 l2 = true → leListaChar l2 l3 = true →
      leListaChar l1 l3 = true := by
  induction l1 with
  | nil => intro l2 l3 _ _; rfl
  | cons a as ih =>
      intro l2 l3 h1 h2
      match l2, l3 with
      | [], _ => simp [leListaChar] at h1
      | b :: bs, [] => simp [leListaChar] at h2
      | b :: bs, c :: cs =>
          simp only [leListaChar] at h1 h2 ⊢
          by_cases hab : a = b <;> by_cases hbc : b = c
          · rw [if_pos hab] at h1
            rw [if_pos hbc] at h2
            rw [if_pos (hab.trans hbc)]
            exact ih bs cs h1 h2
          · rw [if_neg hbc] at h2
            have hlt : a < c := hab ▸ of_decide_eq_true h2
            rw [if_neg (ne_of_lt hlt)]
            exact decide_eq_true hlt
          · rw [if_neg hab] at h1
            have hlt : a < c := hbc ▸ of_decide_eq_true h1
            rw [if_neg (ne_of_lt hlt)]
            exact decide_eq_true hlt
          · rw [if_neg hab] at h1
            rw [if_neg hbc] at h2
            have hlt : a < c := lt_trans (of_decide_eq_true h1) (of_decide_eq_true h2)
            rw [if_neg (ne_of_lt hlt)]
            exact decide_eq_true hlt

/-- Totalidad del orden lexicográfico sobre listas de caracteres. -/
theorem leListaChar_total (l1 : List Char) :
    ∀ l2, leListaChar l1 l2 = true ∨ leListaChar l2 l1 = true := by
  induction l1 with
  | nil => intro l2; left; rfl
  | cons a as ih =>
      intro l2
      match l2 with
      | [] => right; rfl
      | b :: bs =>
          simp only [leListaChar]
          by_cases hab : a = b
          · subst hab
            rw [if_pos rfl, if_pos rfl]
            exact ih bs
          · rw [if_neg hab, if_neg (Ne.symm hab)]
            rcases lt_or_gt_of_ne hab with h | h
            · left; exact decide_eq_true h
            · right; exact decide_eq_true h

instance : IsTrans Documento leTitulo :=
  ⟨fun _ _ _ h1 h2 => leListaChar_trans _ _ _ h1 h2⟩

instance : IsTotal Documento leTitulo :=
  ⟨fun _ _ => leListaChar_total _ _⟩

/-- C5 contraejemplo: con una tabla que contiene un documento de categoría
material, la solicitud sin parámetro tipo devuelve la lista vacía (el valor
por defecto unidades filtra), no todas las filas como afirma la propiedad. -/
theorem obtenerDocumentos_sin_tipo_no_devuelve_todo :
    obtenerDocumentos
        [{ id := 1, titulo := "Guia", descripcion := none, url := "u",
           tipo := "material" }] none = []
    ∧ obtenerDocumentos
        [{ id := 1, titulo := "Guia", descripcion := none, url := "u",
           tipo := "material" }] none
      ≠ [{ id := 1, titulo := "Guia", descripcion := none, url := "u",
           tipo := "material" }] := by
  constructor <;> decide

/-- C5 corregida: con tipo igual a unidades la respuesta contiene exactamente
las filas de categoría unidades, ordenadas por título ascendente; y omitir el
parámetro tipo equivale a pedir tipo unidades (por el valor por defecto), no
devuelve todas las filas. -/
theorem obtenerDocumentos_unidades (documentos : List Documento) :
    (∀ d ∈ obtenerDocumentos documentos (some "unidades"), d.tipo = "unidades")
    ∧ (obtenerDocumentos documentos (some "unidades")).Perm
        (documentos.filter fun d => d.tipo == "unidades")
    ∧ List.Sorted leTitulo (obtenerDocumentos documentos (some "unidades"))
    ∧ obtenerDocumentos documentos none
        = obtenerDocumentos documentos (some "unidades") := by
  have hrepr : obtenerDocumentos documentos (some "unidades")
      = List.insertionSort leTitulo
          (documentos.filter fun d => d.tipo == "unidades") := rfl
  have hperm : (obtenerDocumentos documentos (some "unidades")).Perm
      (documentos.filter fun d => d.tipo == "unidades") := by
    rw [hrepr]
    exact List.perm_insertionSort leTitulo _
  refine ⟨?_, hperm, ?_, rfl⟩
  · intro d hd
    have hmem := hperm.mem_iff.mp hd
    have := (List.mem_filter.mp hmem).2
    simpa using this
  · rw [hrepr]
    exact List.sorted_insertionSort leTitulo _

/-- Testigo de C5 corregida sobre una tabla concreta con dos categorías. -/
theorem obtenerDocumentos_unidades_caso :
    ({ id := 2, titulo := "B", descripcion := none, url := "u2",
       tipo := "unidades" } : Documento).tipo = "unidades"
    ∧ obtenerDocumentos
        [{ id := 1, titulo := "C", descripcion := none, url := "u1",
           tipo := "material" },
         { id := 2, titulo := "B", descripcion := none, url := "u2",
           tipo := "unidades" },
         { id := 3, titulo := "A", descripcion := none, url := "u3",
           tipo := "unidades" }] none
      = obtenerDocumentos
          [{ id := 1, titulo := "C", descripcion := none, url := "u1",
             tipo := "material" },
           { id := 2, titulo := "B", descripcion := none, url := "u2",
             tipo := "unidades" },
           { id := 3, titulo := "A", descripcion := none, url := "u3",
             tipo := "unidades" }] (some "unidades") := by
  obtain ⟨h1, _, _, h4⟩ := obtenerDocumentos_unidades
    [{ id := 1, titulo := "C", descripcion := none, url := "u1",
       tipo := "material" },
     { id := 2, titulo := "B", descripcion := none, url := "u2",
       tipo := "unidades" },
     { id := 3, titulo := "A", descripcion := none, url := "u3",
       tipo := "unidades" }]
  exact ⟨h1 { id := 2, titulo := "B", descripcion := none, url := "u2",
              tipo := "unidades" } (by decide), h4⟩

/-- C4: para una solicitud de autenticación bien formada cuyo correo coincide
con un usuario almacenado, la respuesta es 200 con la proyección del usuario
si y solo si la clave enviada es igual a la almacenada tras recortar blancos
en ambas; cualquier otra clave produce 401, y el cuerpo de ese 401 es idéntico
al 401 de un correo desconocido. -/
theorem autenticacion_credenciales (tabla : List UsuarioAut) (correo : String)
    (contrasena password : Option String) (u : UsuarioAut)
    (hCorreo : correo ≠ "")
    (hClave : truthy (jsOr contrasena password) = true)
    (hU : consultaPorCorreo tabla correo = some u) :
    (((autenticacion tabla none (some correo) contrasena password).status = 200
        ∧ (autenticacion tabla none (some correo) contrasena password).cuerpo
            = CuerpoRespuesta.acceso (proyectarUsuario u))
      ↔ recortar (cadenaONula u.contrasena)
          = recortar (cadenaONula (jsOr contrasena password)))
    ∧ (recortar (cadenaONula u.contrasena)
          ≠ recortar (cadenaONula (jsOr contrasena password)) →
        autenticacion tabla none (some correo) contrasena password
          = { status := 401, cuerpo := .fallo mensajeCredenciales none })
    ∧ (∀ tabla2, consultaPorCorreo tabla2 correo = none →
        autenticacion tabla2 none (some correo) contrasena password
          = { status := 401, cuerpo := .fallo mensajeCredenciales none }) := by
  have hC : truthy (some correo) = true := by simp [truthy, hCorreo]
  have hresp : autenticacion tabla none (some correo) contrasena password
      = respuestaCredenciales u (cadenaONula (jsOr contrasena password)) := by
    simp [autenticacion, hC, hClave, cadenaONula, hU]
  refine ⟨?_, ?_, ?_⟩
  · rw [hresp]
    unfold respuestaCredenciales
    by_cases h : recortar (cadenaONula u.contrasena)
        = recortar (cadenaONula (jsOr contrasena password))
    · simp [h]
    · simp [h]
  · intro h
    rw [hresp]
    simp [respuestaCredenciales, h]
  · intro tabla2 h2
    simp [autenticacion, hC, hClave, cadenaONula, h2]

/-- Testigo de C4: clave correcta (módulo recorte de blancos) da 200 con la
proyección; además el correo y el nombre de la proyección son los del usuario. -/
theorem autenticacion_credenciales_caso :
    (autenticacion
        [{ id_usuario := 1, nombre := some "Ana", correo := "ana@gmail.com",
           contrasena := some " clave " }] none
        (some "ana@gmail.com") (some "clave") none).status = 200
    ∧ (autenticacion
        [{ id_usuario := 1, nombre := some "Ana", correo := "ana@gmail.com",
           contrasena := some " clave " }] none
        (some "ana@gmail.com") (some "clave") none).cuerpo
      = CuerpoRespuesta.acceso
          (proyectarUsuario
            { id_usuario := 1, nombre := some "Ana", correo := "ana@gmail.com",
              contrasena := some " clave " }) :=
  (autenticacion_credenciales
      [{ id_usuario := 1, nombre := some "Ana", correo := "ana@gmail.com",
         contrasena := some " clave " }]
      "ana@gmail.com" (some "clave") none
      { id_usuario := 1, nombre := some "Ana", correo := "ana@gmail.com",
        contrasena := some " clave " }
      (by decide) (by decide) (by decide)).1.mpr (by decide)

/-- C10: si la contraseña almacenada del usuario es NULL, la comparación la
trata como cadena vacía: una clave enviada no vacía que recorta a vacío
autentica con 200 y la proyección del usuario. -/
theorem autenticacion_contrasena_nula (tabla : List UsuarioAut) (correo : String)
    (contrasena password : Option String) (u : UsuarioAut)
    (hCorreo : correo ≠ "")
    (hClave : truthy (jsOr contrasena password) = true)
    (hRecorte : recortar (cadenaONula (jsOr contrasena password)) = "")
    (hU : consultaPorCorreo tabla correo = some u)
    (hNula : u.contrasena = none) :
    autenticacion tabla none (some correo) contrasena password
      = { status := 200, cuerpo := .acceso (proyectarUsuario u) } := by
  have hC : truthy (some correo) = true := by simp [truthy, hCorreo]
  have hresp : autenticacion tabla none (some correo) contrasena password
      = respuestaCredenciales u (cadenaONula (jsOr contrasena password)) := by
    simp [autenticacion, hC, hClave, cadenaONula, hU]
  have hvacia : recortar (cadenaONula u.contrasena) = "" := by
    rw [hNula]
    rfl
  rw [hresp]
  simp [respuestaCredenciales, hvacia, hRecorte]

/-- Testigo de C10: contraseña almacenada NULL y clave enviada de solo blancos. -/
theorem autenticacion_contrasena_nula_caso :
    autenticacion
        [{ id_usuario := 2, nombre := none, correo := "nulo@gmail.com",
           contrasena := none }] none
        (some "nulo@gmail.com") (some " ") none
      = { status := 200,
          cuerpo := .acceso
            (proyectarUsuario
              { id_usuario := 2, nombre := none, correo := "nulo@gmail.com",
                contrasena := none }) } :=
  autenticacion_contrasena_nula
    [{ id_usuario := 2, nombre := none, correo := "nulo@gmail.com",
       contrasena := none }]
    "nulo@gmail.com" (some " ") none
    { id_usuario := 2, nombre := none, correo := "nulo@gmail.com",
      contrasena := none }
    (by decide) (by decide) (by decide) (by decide) rfl

/-- C9 contraejemplo: con el cliente alojado sin configurar, el alta de usuario
sin encabezado de sesión responde 503 (falta de configuración) y no 403 como
afirma la propiedad; la verificación de administrador ocurre después de la
verificación de configuración. -/
theorem crearUsuarioHosted_sin_configurar :
    (crearUsuarioHosted false none (some "Ana") (some "ana@gmail.com")
        (some "clave") false).1 = 503
    ∧ (crearUsuarioHosted false none (some "Ana") (some "ana@gmail.com")
        (some "clave") false).1 ≠ 403 := by
  constructor <;> decide

/-- C9 corregida: con el cliente alojado configurado, cada punto de usuarios
(listar, crear, actualizar, borrar) y cada mutación de documentos (crear,
actualizar, borrar) responde 403 sin efectuar llamada alguna al backend cuando
el encabezado x-correo-sesion normalizado no es admin@gmail.com; el listado de
documentos y la autenticación no pasan por esa verificación. -/
theorem rutasHosted_validan_administrador (encabezado : Option String)
    (hNoAdmin : validarCorreoAdministrador encabezado = false) :
    (∀ falla, listarUsuariosHosted true encabezado falla = (403, []))
    ∧ (∀ nombre correo contrasena falla,
        crearUsuarioHosted true encabezado nombre correo contrasena falla
          = (403, []))
    ∧ (∀ id falla,
        actualizarUsuarioHosted true encabezado id falla = (403, []))
    ∧ (∀ id falla,
        eliminarUsuarioHosted true encabezado id falla = (403, []))
    ∧ (∀ titulo tipo hayArchivo fallaSubida fallaInsercion,
        crearDocumentoHosted true encabezado titulo tipo hayArchivo
            fallaSubida fallaInsercion
          = (403, []))
    ∧ (∀ id hayArchivo fallaSubida fallaActualizacion,
        actualizarDocumentoHosted true encabezado id hayArchivo
            fallaSubida fallaActualizacion
          = (403, []))
    ∧ (∀ id falla,
        eliminarDocumentoHosted true encabezado id falla = (403, []))
    ∧ (∀ tipo falla,
        (listarDocumentosHosted true encabezado tipo falla).2
            = ["seleccionar documentos"]
          ∧ (listarDocumentosHosted true encabezado tipo falla).1 ≠ 403)
    ∧ (∀ entorno correo contrasena password,
        autenticacionHostedRuta encabezado entorno correo contrasena password
          = autenticacionHostedRuta none entorno correo contrasena password) := by
  refine ⟨?_, ?_, ?_, ?_, ?_, ?_, ?_, ?_, ?_⟩
  · intro falla
    simp [listarUsuariosHosted, hNoAdmin]
  · intro nombre correo contrasena falla
    simp [crearUsuarioHosted, hNoAdmin]
  · intro id falla
    simp [actualizarUsuarioHosted, hNoAdmin]
  · intro id falla
    simp [eliminarUsuarioHosted, hNoAdmin]
  · intro titulo tipo hayArchivo fallaSubida fallaInsercion
    simp [crearDocumentoHosted, hNoAdmin]
  · intro id hayArchivo fallaSubida fallaActualizacion
    simp [actualizarDocumentoHosted, hNoAdmin]
  · intro id falla
    simp [eliminarDocumentoHosted, hNoAdmin]
  · intro tipo falla
    cases falla <;> simp [listarDocumentosHosted]
  · intro entorno correo contrasena password
    rfl

/-- Testigo de C9 corregida: un correo de sesión distinto del administrador
recibe 403 sin llamadas de backend en los puntos protegidos, mientras el
listado de documentos sí consulta. -/
theorem rutasHosted_validan_administrador_caso :
    listarUsuariosHosted true (some "otra@gmail.com") false = (403, [])
    ∧ crearUsuarioHosted true (some "otra@gmail.com") (some "Ana")
        (some "ana@gmail.com") (some "clave") false = (403, [])
    ∧ eliminarDocumentoHosted true (some "otra@gmail.com") 7 false = (403, [])
    ∧ (listarDocumentosHosted true (some "otra@gmail.com") (some "unidades")
        false).2 = ["seleccionar documentos"] := by
  obtain ⟨h1, h2, _, _, _, _, h7, h8, _⟩ :=
    rutasHosted_validan_administrador (some "otra@gmail.com") (by decide)
  exact ⟨h1 false, h2 (some "Ana") (some "ana@gmail.com") (some "clave") false,
    h7 7 false, (h8 (some "unidades") false).1⟩

/-- La cadena ausente no es veraz. -/
theorem truthy_none : truthy none = false := rfl

/-- La columna de contraseña resuelta nunca es la cadena vacía. -/
theorem columnaContrasena_no_vacia (S : List String) :
    (obtenerMapaUsuarios S).columnaContrasena ≠ "" := by
  unfold obtenerMapaUsuarios
  by_cases h : "contrasena" ∈ S <;> simp [h]

/-- La columna de correo resuelta, cuando existe, nunca es la cadena vacía. -/
theorem columnaCorreo_no_vacia (S : List String) (c0 : String)
    (h : (obtenerMapaUsuarios S).columnaCorreo = some c0) : c0 ≠ "" := by
  unfold obtenerMapaUsuarios at h
  by_cases h1 : "correo" ∈ S <;> by_cases h2 : "usuario" ∈ S <;>
    simp [h1, h2] at h <;> simp [← h]

/-- C1: en la variante alojada, para solicitudes con correo y clave no vacíos,
el manejador consulta primero la API de tablas; cae a la consulta relacional
directa (vía el mapa de columnas resuelto) exactamente cuando el cliente
alojado no está configurado o el error coincide con el patrón de permisos; y
cuando no aparece usuario y queda un error, responde 503 sin cliente
configurado, 500 con error de patrón de permisos y 502 en el resto. -/
theorem autenticacionHosted_reserva (correo : String)
    (contrasena password : Option String)
    (hCorreo : correo ≠ "")
    (hClave : truthy (jsOr contrasena password) = true) :
    ((autenticacionHosted { supabase := .sinCliente, pool := none }
        (some correo) contrasena password).status = 503)
    ∧ (∀ columnas tabla,
        (obtenerMapaUsuarios columnas).columnaCorreo = none →
        (autenticacionHosted
            { supabase := .sinCliente, pool := some (columnas, tabla) }
            (some correo) contrasena password).status = 503)
    ∧ (∀ columnas tabla c0,
        (obtenerMapaUsuarios columnas).columnaCorreo = some c0 →
        consultaPorCorreo tabla correo = none →
        (autenticacionHosted
            { supabase := .sinCliente, pool := some (columnas, tabla) }
            (some correo) contrasena password).status = 503)
    ∧ (∀ columnas tabla c0 u,
        (obtenerMapaUsuarios columnas).columnaCorreo = some c0 →
        consultaPorCorreo tabla correo = some u →
        autenticacionHosted
            { supabase := .sinCliente, pool := some (columnas, tabla) }
            (some correo) contrasena password
          = respuestaCredenciales u (cadenaONula (jsOr contrasena password)))
    ∧ (∀ m, m ≠ "" → patronPermisos m = true →
        (autenticacionHosted { supabase := .errorConsulta m, pool := none }
            (some correo) contrasena password).status = 500)
    ∧ (∀ m columnas tabla, m ≠ "" → patronPermisos m = true →
        (obtenerMapaUsuarios columnas).columnaCorreo = none →
        (autenticacionHosted
            { supabase := .errorConsulta m, pool := some (columnas, tabla) }
            (some correo) contrasena password).status = 500)
    ∧ (∀ m columnas tabla c0, m ≠ "" → patronPermisos m = true →
        (obtenerMapaUsuarios columnas).columnaCorreo = some c0 →
        consultaPorCorreo tabla correo = none →
        (autenticacionHosted
            { supabase := .errorConsulta m, pool := some (columnas, tabla) }
            (some correo) contrasena password).status = 500)
    ∧ (∀ m columnas tabla c0 u, m ≠ "" → patronPermisos m = true →
        (obtenerMapaUsuarios columnas).columnaCorreo = some c0 →
        consultaPorCorreo tabla correo = some u →
        autenticacionHosted
            { supabase := .errorConsulta m, pool := some (columnas, tabla) }
            (some correo) contrasena password
          = respuestaCredenciales u (cadenaONula (jsOr contrasena password)))
    ∧ (∀ m pool, m ≠ "" → patronPermisos m = false →
        autenticacionHosted { supabase := .errorConsulta m, pool := pool }
            (some correo) contrasena password
          = { status := 502,
              cuerpo := .fallo "No se pudo validar el acceso en Supabase."
                (some m) }) := by
  have hC : truthy (some correo) = true := by simp [truthy, hCorreo]
  refine ⟨?_, ?_, ?_, ?_, ?_, ?_, ?_, ?_, ?_⟩
  · simp [autenticacionHosted, hC, hClave]
  · intro columnas tabla hcol
    simp [autenticacionHosted, hC, hClave, buscarUsuarioPorCorreoConPool, hcol,
      truthy_none]
  · intro columnas tabla c0 hcol hNo
    have htc : truthy (some c0) = true := by
      simp [truthy, columnaCorreo_no_vacia columnas c0 hcol]
    have hcc : ((obtenerMapaUsuarios columnas).columnaContrasena == "") = false := by
      rw [beq_eq_false_iff_ne]
      exact columnaContrasena_no_vacia columnas
    simp [autenticacionHosted, hC, hClave, buscarUsuarioPorCorreoConPool, hcol,
      htc, hcc, cadenaONula, hNo]
  · intro columnas tabla c0 u hcol hU
    have htc : truthy (some c0) = true := by
      simp [truthy, columnaCorreo_no_vacia columnas c0 hcol]
    have hcc : ((obtenerMapaUsuarios columnas).columnaContrasena == "") = false := by
      rw [beq_eq_false_iff_ne]
      exact columnaContrasena_no_vacia columnas
    simp [autenticacionHosted, hC, hClave, buscarUsuarioPorCorreoConPool, hcol,
      htc, hcc, cadenaONula, hU]
  · intro m hm hp
    have hmsg : mensajeErrorConsulta m = m := by simp [mensajeErrorConsulta, hm]
    simp [autenticacionHosted, hC, hClave, hmsg, cadenaONula, hp]
  · intro m columnas tabla hm hp hcol
    have hmsg : mensajeErrorConsulta m = m := by simp [mensajeErrorConsulta, hm]
    simp [autenticacionHosted, hC, hClave, hmsg, cadenaONula, hp,
      buscarUsuarioPorCorreoConPool, hcol, truthy_none]
  · intro m columnas tabla c0 hm hp hcol hNo
    have hmsg : mensajeErrorConsulta m = m := by simp [mensajeErrorConsulta, hm]
    have htc : truthy (some c0) = true := by
      simp [truthy, columnaCorreo_no_vacia columnas c0 hcol]
    have hcc : ((obtenerMapaUsuarios columnas).columnaContrasena == "") = false := by
      rw [beq_eq_false_iff_ne]
      exact columnaContrasena_no_vacia columnas
    simp [autenticacionHosted, hC, hClave, hmsg, cadenaONula, hp,
      buscarUsuarioPorCorreoConPool, hcol, htc, hcc, hNo]
  · intro m columnas tabla c0 u hm hp hcol hU
    have hmsg : mensajeErrorConsulta m = m := by simp [mensajeErrorConsulta, hm]
    have htc : truthy (some c0) = true := by
      simp [truthy, columnaCorreo_no_vacia columnas c0 hcol]
    have hcc : ((obtenerMapaUsuarios columnas).columnaContrasena == "") = false := by
      rw [beq_eq_false_iff_ne]
      exact columnaContrasena_no_vacia columnas
    simp [autenticacionHosted, hC, hClave, hmsg, cadenaONula, hp,
      buscarUsuarioPorCorreoConPool, hcol, htc, hcc, hU]
  · intro m pool hm hp
    have hmsg : mensajeErrorConsulta m = m := by simp [mensajeErrorConsulta, hm]
    simp [autenticacionHosted, hC, hClave, hmsg, cadenaONula, hp]

/-- Testigo de C1: sin configuración responde 503; con error de permisos la
reserva encuentra al usuario y decide por credenciales; con otro error
responde 502 con el detalle. -/
theorem autenticacionHosted_reserva_caso :
    (autenticacionHosted { supabase := .sinCliente, pool := none }
        (some "ana@gmail.com") (some "clave") none).status = 503
    ∧ autenticacionHosted
        { supabase := .errorConsulta "permission denied",
          pool := some (["correo"],
            [{ id_usuario := 1, nombre := some "Ana", correo := "ana@gmail.com",
               contrasena := some "clave" }]) }
        (some "ana@gmail.com") (some "clave") none
      = respuestaCredenciales
          { id_usuario := 1, nombre := some "Ana", correo := "ana@gmail.com",
            contrasena := some "clave" }
          (cadenaONula (jsOr (some "clave") none))
    ∧ autenticacionHosted
        { supabase := .errorConsulta "otro error", pool := none }
        (some "ana@gmail.com") (some "clave") none
      = { status := 502,
          cuerpo := .fallo "No se pudo validar el acceso en Supabase."
            (some "otro error") } := by
  obtain ⟨h1, _, _, _, _, _, _, h8, h9⟩ :=
    autenticacionHosted_reserva "ana@gmail.com" (some "clave") none
      (by decide) (by decide)
  refine ⟨h1, ?_, ?_⟩
  · exact h8 "permission denied" ["correo"]
      [{ id_usuario := 1, nombre := some "Ana", correo := "ana@gmail.com",
         contrasena := some "clave" }]
      "correo"
      { id_usuario := 1, nombre := some "Ana", correo := "ana@gmail.com",
        contrasena := some "clave" }
      (by decide) (by decide) (by decide) (by decide)
  · exact h9 "otro error" none (by decide) (by decide)

end JJPalacios
